import Mathlib

/-!
Verification of the react-lms quiz engine.

Shallow embedding of the grading engine (`src/utils/questions/grading.ts`),
the quiz state machine (`src/hooks/quiz/useQuizState.ts`) and the seeded
shuffle (`src/components/questions/MultipleChoice/MultipleChoice.tsx`,
`src/components/questions/Matching/Matching.tsx`).

JavaScript numbers are modelled as exact rationals extended with the three
non-finite values `nan`, `inf`, `ninf`; the arithmetic operations follow the
IEEE rules for those values (division by zero, NaN propagation, NaN being
falsy for `||` and incomparable for `<=`).  Rounding of finite doubles is not
modelled.  JavaScript values stored in an answer are modelled by `JSValue`
(null, undefined, booleans, strings, arrays of option-id strings, and
string-to-string records), with JS truthiness and string coercion.  JS `Map`s
are modelled as association lists with `Map.get` / `Map.set` / `Map.delete`
semantics.
-/

namespace ReactLMS

/-- A JavaScript number: a finite rational or NaN / Infinity / -Infinity. -/
inductive JSNum where
  | fin : ℚ → JSNum
  | nan : JSNum
  | inf : JSNum
  | ninf : JSNum
deriving DecidableEq, Repr

/-- JS addition on numbers (only the cases reachable here matter; the table
follows IEEE semantics). -/
def jsAdd : JSNum → JSNum → JSNum
  | .nan, _ => .nan
  | _, .nan => .nan
  | .inf, .ninf => .nan
  | .ninf, .inf => .nan
  | .inf, _ => .inf
  | _, .inf => .inf
  | .ninf, _ => .ninf
  | _, .ninf => .ninf
  | .fin a, .fin b => .fin (a + b)

/-- JS subtraction. -/
def jsSub : JSNum → JSNum → JSNum
  | .nan, _ => .nan
  | _, .nan => .nan
  | .inf, .inf => .nan
  | .ninf, .ninf => .nan
  | .inf, _ => .inf
  | .ninf, _ => .ninf
  | .fin _, .inf => .ninf
  | .fin _, .ninf => .inf
  | .fin a, .fin b => .fin (a - b)

/-- JS multiplication. -/
def jsMul : JSNum → JSNum → JSNum
  | .nan, _ => .nan
  | _, .nan => .nan
  | .inf, .inf => .inf
  | .inf, .ninf => .ninf
  | .ninf, .inf => .ninf
  | .ninf, .ninf => .inf
  | .inf, .fin b => if b = 0 then .nan else if 0 < b then .inf else .ninf
  | .fin a, .inf => if a = 0 then .nan else if 0 < a then .inf else .ninf
  | .ninf, .fin b => if b = 0 then .nan else if 0 < b then .ninf else .inf
  | .fin a, .ninf => if a = 0 then .nan else if 0 < a then .ninf else .inf
  | .fin a, .fin b => .fin (a * b)

/-- JS division; division of a nonzero finite number by zero gives a signed
infinity and `0 / 0` gives NaN. -/
def jsDiv : JSNum → JSNum → JSNum
  | .nan, _ => .nan
  | _, .nan => .nan
  | .inf, .inf => .nan
  | .inf, .ninf => .nan
  | .ninf, .inf => .nan
  | .ninf, .ninf => .nan
  | .inf, .fin b => if 0 ≤ b then .inf else .ninf
  | .ninf, .fin b => if 0 ≤ b then .ninf else .inf
  | .fin _, .inf => .fin 0
  | .fin _, .ninf => .fin 0
  | .fin a, .fin b =>
      if b = 0 then (if a = 0 then .nan else if 0 < a then .inf else .ninf)
      else .fin (a / b)

/-- `Math.max`: NaN if either argument is NaN. -/
def jsMax : JSNum → JSNum → JSNum
  | .nan, _ => .nan
  | _, .nan => .nan
  | .inf, _ => .inf
  | _, .inf => .inf
  | .ninf, x => x
  | x, .ninf => x
  | .fin a, .fin b => .fin (max a b)

/-- JS `x || 0`: NaN (and 0 itself) are falsy, so they collapse to 0. -/
def jsOr0 : JSNum → JSNum
  | .nan => .fin 0
  | x => x

/-- JS `<=` on numbers as a boolean: any comparison with NaN is false. -/
def jsLeB : JSNum → JSNum → Bool
  | .nan, _ => false
  | _, .nan => false
  | .ninf, _ => true
  | _, .inf => true
  | .inf, _ => false
  | .fin _, .ninf => false
  | .fin a, .fin b => decide (a ≤ b)

/-- Whether a JS number is finite (not NaN and not an infinity). -/
def isFin : JSNum → Bool
  | .fin _ => true
  | _ => false

/-- A JavaScript value as stored in `QuestionAnswer.value`. -/
inductive JSValue where
  | vNull : JSValue
  | vUndef : JSValue
  | vBool : Bool → JSValue
  | vStr : String → JSValue
  | vArr : List String → JSValue
  | vRec : List (String × String) → JSValue
deriving DecidableEq, Repr

/-- JS truthiness of a value ("" , null, undefined and false are falsy;
arrays and objects are always truthy). -/
def truthy : JSValue → Bool
  | .vNull => false
  | .vUndef => false
  | .vBool b => b
  | .vStr s => s != ""
  | .vArr _ => true
  | .vRec _ => true

/-- JS `String(value)` coercion. -/
def jsToString : JSValue → String
  | .vNull => "null"
  | .vUndef => "undefined"
  | .vBool b => if b then "true" else "false"
  | .vStr s => s
  | .vArr l => String.intercalate "," l
  | .vRec _ => "[object Object]"

/-- JS `Map.get` on an association list. -/
def mapGet {β : Type} : List (String × β) → String → Option β
  | [], _ => none
  | p :: rest, k => if p.1 = k then some p.2 else mapGet rest k

/-- JS `Map.set`: replace the entry in place if the key is present, else
append the new entry. -/
def mapSet {β : Type} : List (String × β) → String → β → List (String × β)
  | [], k, v => [(k, v)]
  | p :: rest, k, v => if p.1 = k then (k, v) :: rest else p :: mapSet rest k v

/-- JS `Map.delete`: remove the entry for the key. -/
def mapDelete {β : Type} (m : List (String × β)) (k : String) :
    List (String × β) :=
  m.filter (fun p => p.1 != k)

/-- Property access `value[key]` yielding a string, `undefined` (`none`)
when the value is not a record or the key is absent. -/
def recGet : JSValue → String → Option String
  | .vRec m, k => mapGet m k
  | _, _ => none

/-! ## Question configurations (`src/types`, `questions.ts`)

Only the fields consulted by the grading engine and the quiz state machine
are embedded; purely presentational fields (title, question text, media,
display hints, placeholders) are omitted since no modelled operation reads
them. -/

/-- A multiple-choice option (`MultipleChoiceOption`): grading uses only the
id and the correctness flag. -/
structure MultipleChoiceOption where
  id : String
  isCorrect : Bool
deriving DecidableEq, Repr

/-- `MultipleChoiceConfig`.  `allowMultiple` is optional in the source and
falsy when absent, so it is a plain `Bool` here. -/
structure MultipleChoiceConfig where
  id : String
  points : ℚ
  options : List MultipleChoiceOption
  allowMultiple : Bool
deriving DecidableEq, Repr

/-- `TrueOrFalseConfig`. -/
structure TrueFalseConfig where
  id : String
  points : ℚ
  correctAnswer : Bool
deriving DecidableEq, Repr

/-- `ShortAnswerConfig`.  `correctAnswers` is optional in the source;
`caseSensitive` and `trimWhitespace` are optional booleans, falsy when
absent. -/
structure ShortAnswerConfig where
  id : String
  points : ℚ
  correctAnswers : Option (List String)
  caseSensitive : Bool
  trimWhitespace : Bool
deriving DecidableEq, Repr

/-- `EssayConfig` (grading only reads the points). -/
structure EssayConfig where
  id : String
  points : ℚ
deriving DecidableEq, Repr

/-- A `FillInBlankSegment`: a text segment or a blank with its id, optional
accepted answers and optional case-sensitivity flag (the source tests
`caseSensitive !== true`, so absent and `false` coincide and a `Bool`
suffices). -/
inductive FillSegment where
  | text : String → FillSegment
  | blank : String → Option (List String) → Bool → FillSegment
deriving DecidableEq, Repr

/-- Whether a segment is a blank (`seg.type === 'blank'`). -/
def FillSegment.isBlank : FillSegment → Bool
  | .blank _ _ _ => true
  | .text _ => false

/-- `FillInBlankConfig`. -/
structure FillInBlankConfig where
  id : String
  points : ℚ
  segments : List FillSegment
deriving DecidableEq, Repr

/-- A `MatchingPair`. -/
structure MatchingPair where
  id : String
  left : String
  right : String
deriving DecidableEq, Repr

/-- `MatchingConfig`. -/
structure MatchingConfig where
  id : String
  points : ℚ
  pairs : List MatchingPair
deriving DecidableEq, Repr

/-- The tagged union `QuestionConfig` over the six graded variants. -/
inductive QuestionConfig where
  | multipleChoice : MultipleChoiceConfig → QuestionConfig
  | trueFalse : TrueFalseConfig → QuestionConfig
  | shortAnswer : ShortAnswerConfig → QuestionConfig
  | essay : EssayConfig → QuestionConfig
  | fillInBlank : FillInBlankConfig → QuestionConfig
  | matching : MatchingConfig → QuestionConfig
deriving DecidableEq, Repr

/-- The question's id. -/
def QuestionConfig.qid : QuestionConfig → String
  | .multipleChoice c => c.id
  | .trueFalse c => c.id
  | .shortAnswer c => c.id
  | .essay c => c.id
  | .fillInBlank c => c.id
  | .matching c => c.id

/-- The question's point value. -/
def QuestionConfig.points : QuestionConfig → ℚ
  | .multipleChoice c => c.points
  | .trueFalse c => c.points
  | .shortAnswer c => c.points
  | .essay c => c.points
  | .fillInBlank c => c.points
  | .matching c => c.points

/-- `QuestionAnswer` (fields used by grading and the state machine). -/
structure QuestionAnswer where
  questionId : String
  value : JSValue
  isAnswered : Bool
  attemptNumber : ℕ
deriving DecidableEq, Repr

/-- `GradingResult`. -/
structure GradingResult where
  isCorrect : Bool
  isPartiallyCorrect : Bool
  score : JSNum
  maxScore : ℚ
  feedback : Option String
deriving DecidableEq, Repr

/-! ## Grading engine (`src/utils/questions/grading.ts`) -/

/-- `userAnswers`: an array value is used as is; a non-array truthy value
becomes a singleton and a falsy one the empty selection
(`Array.isArray(v) ? v : v ? [v] : []`). -/
def mcUserAnswers : JSValue → List JSValue
  | .vArr l => l.map JSValue.vStr
  | v => if truthy v then [v] else []

/-- `correctOptionIds.includes(x)`: `===` can only match a string. -/
def isCorrectSel (ids : List String) : JSValue → Bool
  | .vStr s => ids.contains s
  | _ => false

/-- `gradeMultipleChoice`. -/
def gradeMultipleChoice (config : MultipleChoiceConfig)
    (answer : QuestionAnswer) : GradingResult :=
  let correctOptionIds := (config.options.filter (·.isCorrect)).map (·.id)
  let userAnswers := mcUserAnswers answer.value
  if !answer.isAnswered || userAnswers.isEmpty then
    { isCorrect := false, isPartiallyCorrect := false, score := .fin 0,
      maxScore := config.points, feedback := some "No answer provided" }
  else if !config.allowMultiple then
    let isCorrect :=
      match userAnswers with
      | [v] => isCorrectSel correctOptionIds v
      | _ => false
    { isCorrect, isPartiallyCorrect := false,
      score := if isCorrect then .fin config.points else .fin 0,
      maxScore := config.points, feedback := none }
  else
    let correctCount := userAnswers.countP (isCorrectSel correctOptionIds)
    let incorrectCount :=
      userAnswers.countP (fun v => !isCorrectSel correctOptionIds v)
    let isFullyCorrect :=
      correctCount == correctOptionIds.length && incorrectCount == 0
    let isPartiallyCorrect := decide (0 < correctCount) && !isFullyCorrect
    let percentCorrect :=
      jsDiv (.fin correctCount) (.fin correctOptionIds.length)
    let penalty :=
      jsDiv (.fin incorrectCount) (.fin correctOptionIds.length)
    let finalPercent := jsMax (.fin 0) (jsSub percentCorrect penalty)
    { isCorrect := isFullyCorrect, isPartiallyCorrect,
      score := jsMul finalPercent (.fin config.points),
      maxScore := config.points, feedback := none }

/-- `gradeTrueFalse` (guard: `!isAnswered || value === undefined ||
value === null`; strict equality with the configured boolean). -/
def gradeTrueFalse (config : TrueFalseConfig)
    (answer : QuestionAnswer) : GradingResult :=
  if !answer.isAnswered || answer.value == .vUndef || answer.value == .vNull
  then
    { isCorrect := false, isPartiallyCorrect := false, score := .fin 0,
      maxScore := config.points, feedback := some "No answer provided" }
  else
    let isCorrect := answer.value == .vBool config.correctAnswer
    { isCorrect, isPartiallyCorrect := false,
      score := if isCorrect then .fin config.points else .fin 0,
      maxScore := config.points, feedback := none }

/-- Normalisation applied to both sides in `gradeShortAnswer`: optional trim,
then optional lower-casing. -/
def saNormalize (config : ShortAnswerConfig) (s : String) : String :=
  let s := if config.trimWhitespace then s.trim else s
  if config.caseSensitive then s else s.toLower

/-- `gradeShortAnswer`. -/
def gradeShortAnswer (config : ShortAnswerConfig)
    (answer : QuestionAnswer) : GradingResult :=
  if !answer.isAnswered || !truthy answer.value then
    { isCorrect := false, isPartiallyCorrect := false, score := .fin 0,
      maxScore := config.points, feedback := some "No answer provided" }
  else
    match config.correctAnswers with
    | none =>
      { isCorrect := false, isPartiallyCorrect := false, score := .fin 0,
        maxScore := config.points,
        feedback := some "This question requires manual grading" }
    | some correctAnswers =>
      if correctAnswers.isEmpty then
        { isCorrect := false, isPartiallyCorrect := false, score := .fin 0,
          maxScore := config.points,
          feedback := some "This question requires manual grading" }
      else
        let userAnswer := saNormalize config (jsToString answer.value)
        let isCorrect :=
          correctAnswers.any (fun c => userAnswer == saNormalize config c)
        { isCorrect, isPartiallyCorrect := false,
          score := if isCorrect then .fin config.points else .fin 0,
          maxScore := config.points, feedback := none }

/-- Per-blank normalisation in `gradeFillInBlank`: lower-case unless the
blank is explicitly case-sensitive, then trim. -/
def blankNormalize (caseSensitive : Bool) (s : String) : String :=
  (if caseSensitive then s else s.toLower).trim

/-- Whether one blank is answered correctly: skip missing or empty user
answers, and an absent accepted-answer list never matches. -/
def blankCorrect (userAnswers : JSValue) : FillSegment → Bool
  | .text _ => false
  | .blank bid correctAnswers caseSensitive =>
    match recGet userAnswers bid with
    | none => false
    | some u =>
      if u == "" then false
      else
        match correctAnswers with
        | none => false
        | some l =>
          l.any (fun c => blankNormalize caseSensitive u
            == blankNormalize caseSensitive c)

/-- `gradeFillInBlank`. -/
def gradeFillInBlank (config : FillInBlankConfig)
    (answer : QuestionAnswer) : GradingResult :=
  if !answer.isAnswered || !truthy answer.value then
    { isCorrect := false, isPartiallyCorrect := false, score := .fin 0,
      maxScore := config.points, feedback := some "No answer provided" }
  else
    let blanks := config.segments.filter FillSegment.isBlank
    let correctCount := blanks.countP (blankCorrect answer.value)
    let totalBlanks := blanks.length
    let isFullyCorrect := correctCount == totalBlanks
    let isPartiallyCorrect := decide (0 < correctCount) && !isFullyCorrect
    let percentCorrect : ℚ :=
      if 0 < totalBlanks then (correctCount : ℚ) / totalBlanks else 0
    { isCorrect := isFullyCorrect, isPartiallyCorrect,
      score := .fin (percentCorrect * config.points),
      maxScore := config.points, feedback := none }

/-- `gradeMatching`: exact comparison of the chosen right value with the
pair's canonical right value. -/
def gradeMatching (config : MatchingConfig)
    (answer : QuestionAnswer) : GradingResult :=
  if !answer.isAnswered || !truthy answer.value then
    { isCorrect := false, isPartiallyCorrect := false, score := .fin 0,
      maxScore := config.points, feedback := some "No answer provided" }
  else
    let totalPairs := config.pairs.length
    let correctCount := config.pairs.countP (fun pair =>
      match recGet answer.value pair.id with
      | some r => r == pair.right
      | none => false)
    let isFullyCorrect := correctCount == totalPairs
    let isPartiallyCorrect := decide (0 < correctCount) && !isFullyCorrect
    let percentCorrect : ℚ :=
      if 0 < totalPairs then (correctCount : ℚ) / totalPairs else 0
    { isCorrect := isFullyCorrect, isPartiallyCorrect,
      score := .fin (percentCorrect * config.points),
      maxScore := config.points, feedback := none }

/-- `gradeQuestion`: dispatch on the variant tag; essays always return the
manual-grading result. -/
def gradeQuestion (config : QuestionConfig)
    (answer : QuestionAnswer) : GradingResult :=
  match config with
  | .multipleChoice c => gradeMultipleChoice c answer
  | .trueFalse c => gradeTrueFalse c answer
  | .shortAnswer c => gradeShortAnswer c answer
  | .essay c =>
    { isCorrect := false, isPartiallyCorrect := false, score := .fin 0,
      maxScore := c.points,
      feedback := some "This question requires manual grading" }
  | .fillInBlank c => gradeFillInBlank c answer
  | .matching c => gradeMatching c answer

/-- The zero-score "No answer provided" result used by `gradeQuiz` for a
question with no answer entry. -/
def noAnswerResult (points : ℚ) : GradingResult :=
  { isCorrect := false, isPartiallyCorrect := false, score := .fin 0,
    maxScore := points, feedback := some "No answer provided" }

/-- Output of `gradeQuiz`. -/
structure QuizGrading where
  totalScore : JSNum
  maxScore : ℚ
  percentage : JSNum
  results : List (String × GradingResult)
deriving DecidableEq, Repr

/-- The loop body of `gradeQuiz`: a missing answer contributes the zero
result and its points to `maxScore` without touching `totalScore`; an
existing answer is graded and both totals are updated. -/
def gradeQuizStep (answers : List (String × QuestionAnswer))
    (acc : JSNum × ℚ × List (String × GradingResult))
    (question : QuestionConfig) :
    JSNum × ℚ × List (String × GradingResult) :=
  match mapGet answers question.qid with
  | none =>
    (acc.1, acc.2.1 + question.points,
      mapSet acc.2.2 question.qid (noAnswerResult question.points))
  | some answer =>
    let result := gradeQuestion question answer
    (jsAdd acc.1 result.score, acc.2.1 + result.maxScore,
      mapSet acc.2.2 question.qid result)

/-- `gradeQuiz`: iterate every configured question and aggregate. -/
def gradeQuiz (questions : List QuestionConfig)
    (answers : List (String × QuestionAnswer)) : QuizGrading :=
  let acc := questions.foldl (gradeQuizStep answers) (.fin 0, 0, [])
  { totalScore := acc.1, maxScore := acc.2.1,
    percentage :=
      if 0 < acc.2.1 then jsMul (jsDiv acc.1 (.fin acc.2.1)) (.fin 100)
      else .fin 0,
    results := acc.2.2 }

/-! ## Quiz state machine (`src/hooks/quiz/useQuizState.ts`)

The hook's handlers are embedded as pure transition functions on
`QuizState`.  Timestamps (`submittedAt`, `Date.now()`) and the React
plumbing (callbacks, memoisation, timers, auto-save) are not modelled; the
fresh-session construction path (no `loadedResult`, no `initialAnswers`) is
the one embedded. -/

/-- Quiz/submission status (`'not-started' | 'in-progress' | 'submitted' |
'graded'`; the same union serves `SubmissionStatus`). -/
inductive Status where
  | notStarted
  | inProgress
  | submitted
  | graded
deriving DecidableEq, Repr

/-- `QuizConfig` (fields read by the modelled operations; presentational and
unmodelled policy fields are omitted). -/
structure QuizConfig where
  id : String
  questions : List QuestionConfig
  allowNavigation : Bool
  allowSkip : Bool
  requireAllAnswered : Bool
  passingScore : Option ℚ
  timeLimit : Option ℕ
deriving DecidableEq, Repr

/-- A feedback entry tag on a submission. -/
inductive FeedbackType where
  | correct
  | incorrect
deriving DecidableEq, Repr

/-- A feedback entry on a submission. -/
structure FeedbackEntry where
  ftype : FeedbackType
  message : String
deriving DecidableEq, Repr

/-- `QuestionSubmission` (without timestamps). -/
structure QuestionSubmission where
  questionId : String
  answer : QuestionAnswer
  status : Status
  score : Option JSNum
  maxScore : ℚ
  feedback : Option (List FeedbackEntry)
deriving DecidableEq, Repr

/-- `QuizState` (without timestamps). -/
structure QuizState where
  config : QuizConfig
  currentQuestionIndex : ℕ
  answers : List (String × QuestionAnswer)
  submissions : List (String × QuestionSubmission)
  status : Status
  attemptNumber : ℕ
  totalTimeSpent : ℕ
  maxScore : ℚ
  score : Option JSNum
deriving DecidableEq, Repr

/-- `QuizResult` (without the submission timestamp). -/
structure QuizResult where
  quizId : String
  answers : List QuestionAnswer
  submissions : List QuestionSubmission
  score : JSNum
  maxScore : ℚ
  percentage : JSNum
  isPassed : Bool
  timeSpent : ℕ
  attemptNumber : ℕ
deriving DecidableEq, Repr

/-- `QuizProgress`. -/
structure QuizProgress where
  totalQuestions : ℕ
  answeredQuestions : ℕ
  currentQuestionIndex : ℕ
  percentComplete : JSNum
  timeSpent : ℕ
  timeRemaining : Option ℕ
deriving DecidableEq, Repr

/-- The ids of the configured questions. -/
def questionIds (config : QuizConfig) : List String :=
  config.questions.map QuestionConfig.qid

/-- Initial state for a fresh session: empty maps, `not-started`, attempt 1
and `maxScore` summed over all question points. -/
def initState (config : QuizConfig) : QuizState :=
  { config, currentQuestionIndex := 0, answers := [], submissions := [],
    status := .notStarted, attemptNumber := 1, totalTimeSpent := 0,
    maxScore := (config.questions.map QuestionConfig.points).sum,
    score := none }

/-- `setAnswer`: replace the map entry wholesale and lazily start the quiz.
No validation of the question id and no check of the current status. -/
def setAnswer (s : QuizState) (questionId : String)
    (answer : QuestionAnswer) : QuizState :=
  { s with answers := mapSet s.answers questionId answer,
           status := if s.status = .notStarted then .inProgress
                     else s.status }

/-- `getAnswer`. -/
def getAnswer (s : QuizState) (questionId : String) : Option QuestionAnswer :=
  mapGet s.answers questionId

/-- `clearAnswer`: remove the entry entirely; no status check. -/
def clearAnswer (s : QuizState) (questionId : String) : QuizState :=
  { s with answers := mapDelete s.answers questionId }

/-- `clearAllAnswers`: empty both maps together. -/
def clearAllAnswers (s : QuizState) : QuizState :=
  { s with answers := [], submissions := [] }

/-- The current question, `null` when the index is out of range
(`config.questions[index]`). -/
def currentQuestion (s : QuizState) : Option QuestionConfig :=
  s.config.questions[s.currentQuestionIndex]?

/-- `canGoNext`: JS computes `index < length - 1` (and with zero questions
`length - 1` is `-1`, so the comparison is false, exactly as the truncated
`ℕ` subtraction gives). -/
def canGoNext (s : QuizState) : Bool :=
  let hasNext :=
    decide (s.currentQuestionIndex < s.config.questions.length - 1)
  if !s.config.allowSkip && !s.config.allowNavigation then
    let currentAnswer :=
      (currentQuestion s).bind (fun q => mapGet s.answers q.qid)
    hasNext && (match currentAnswer with
                | some a => a.isAnswered
                | none => false)
  else hasNext

/-- `canGoPrevious`. -/
def canGoPrevious (s : QuizState) : Bool :=
  s.config.allowNavigation && decide (0 < s.currentQuestionIndex)

/-- `goToQuestion`: clamp silently — out-of-range indices are ignored.  The
argument is an integer since callers may pass any number. -/
def goToQuestion (s : QuizState) (index : ℤ) : QuizState :=
  if 0 ≤ index ∧ index < s.config.questions.length then
    { s with currentQuestionIndex := index.toNat,
             status := if s.status = .notStarted then .inProgress
                       else s.status }
  else s

/-- `nextQuestion`. -/
def nextQuestion (s : QuizState) : QuizState :=
  if canGoNext s then
    { s with currentQuestionIndex := s.currentQuestionIndex + 1 }
  else s

/-- `previousQuestion`. -/
def previousQuestion (s : QuizState) : QuizState :=
  if canGoPrevious s then
    { s with currentQuestionIndex := s.currentQuestionIndex - 1 }
  else s

/-- `submitQuestion`: requires an existing answer and a configured question;
stores an ungraded `submitted` snapshot. -/
def submitQuestion (s : QuizState) (questionId : String) : QuizState :=
  match mapGet s.answers questionId with
  | none => s
  | some answer =>
    match s.config.questions.find? (fun q => q.qid == questionId) with
    | none => s
    | some question =>
      let submission : QuestionSubmission :=
        { questionId, answer, status := .submitted, score := none,
          maxScore := question.points, feedback := none }
      { s with submissions := mapSet s.submissions questionId submission }

/-- The number of answered questions in `progress`
(`answers.values().filter(a => a.isAnswered).length`). -/
def answeredCount (s : QuizState) : ℕ :=
  (s.answers.filter (fun p => p.2.isAnswered)).length

/-- The derived `progress` object.  `percentComplete` is computed exactly as
in the source, with no divide-by-zero guard. -/
def progressOf (s : QuizState) : QuizProgress :=
  let totalQuestions := s.config.questions.length
  let answeredQuestions := answeredCount s
  { totalQuestions, answeredQuestions,
    currentQuestionIndex := s.currentQuestionIndex,
    percentComplete :=
      jsMul (jsDiv (.fin answeredQuestions) (.fin totalQuestions)) (.fin 100),
    timeSpent := s.totalTimeSpent,
    timeRemaining := s.config.timeLimit.map
      (fun limit => limit - s.totalTimeSpent) }

/-- `canSubmitQuiz`: false in a terminal status; else all answered when
`requireAllAnswered`, else at least one answered. -/
def canSubmitQuiz (s : QuizState) : Bool :=
  match s.status with
  | .submitted => false
  | .graded => false
  | _ =>
    if s.config.requireAllAnswered then
      answeredCount s == s.config.questions.length
    else
      decide (0 < answeredCount s)

/-- The placeholder answer synthesised by `submitQuiz` for a question with
no answer entry. -/
def emptyAnswer (questionId : String) (attemptNumber : ℕ) : QuestionAnswer :=
  { questionId, value := .vNull, isAnswered := false, attemptNumber }

/-- The pre-grading submission for one question in `submitQuiz`: reuse an
existing submission, else synthesise one from the current answer or the
empty placeholder. -/
def preSubmission (s : QuizState) (question : QuestionConfig) :
    QuestionSubmission :=
  match mapGet s.submissions question.qid with
  | some existing => existing
  | none =>
    { questionId := question.qid,
      answer := (mapGet s.answers question.qid).getD
        (emptyAnswer question.qid s.attemptNumber),
      status := .submitted, score := none, maxScore := question.points,
      feedback := none }

/-- Merging the grading result into a submission:
`score: results.get(id)?.score || 0` and a single feedback entry tagged
`correct`/`incorrect` when the grading produced (truthy) feedback. -/
def mergeGrading (results : List (String × GradingResult))
    (sub : QuestionSubmission) : QuestionSubmission :=
  { sub with
    score := some (match mapGet results sub.questionId with
                   | some r => jsOr0 r.score
                   | none => .fin 0),
    feedback := match mapGet results sub.questionId with
                | some r =>
                  match r.feedback with
                  | some msg =>
                    if msg == "" then none
                    else some [{ ftype := if r.isCorrect then .correct
                                          else .incorrect,
                                 message := msg }]
                  | none => none
                | none => none }

/-- `submitQuiz`: build one submission per configured question, grade the
whole quiz, merge scores and feedback, produce the `QuizResult`, and
transition the state directly to `graded` storing the score. -/
def submitQuiz (s : QuizState) : QuizResult × QuizState :=
  let allSubmissions := s.config.questions.map (preSubmission s)
  let grading := gradeQuiz s.config.questions s.answers
  let result : QuizResult :=
    { quizId := s.config.id,
      answers := s.answers.map (·.2),
      submissions := allSubmissions.map (mergeGrading grading.results),
      score := grading.totalScore,
      maxScore := grading.maxScore,
      percentage := grading.percentage,
      isPassed := jsLeB (.fin (s.config.passingScore.getD 0))
        grading.percentage,
      timeSpent := s.totalTimeSpent,
      attemptNumber := s.attemptNumber }
  (result, { s with status := .graded, score := some grading.totalScore })

/-! ## Seeded shuffle (`MultipleChoice.tsx` / `Matching.tsx`) -/

/-- One step of the linear-congruential generator. -/
def lcgNext (seed : ℕ) : ℕ := (seed * 9301 + 49297) % 233280

/-- The generator state after the `k`-th call (the closure first advances
the seed, then emits). -/
def lcgState (seed : ℕ) (k : ℕ) : ℕ := lcgNext^[k + 1] seed

/-- The `k`-th uniform draw emitted by `seededRandom(seed)`. -/
def lcgDraw (seed : ℕ) (k : ℕ) : ℚ := (lcgState seed k : ℚ) / 233280

/-- `Math.floor(q)` of a nonnegative draw as a natural index (both random
sources emit values in `[0, 1)`, so the scaled draw is nonnegative and its
floor is the integer quotient of the rational's numerator by its
denominator). -/
def floorNat (q : ℚ) : ℕ := q.num.toNat / q.den

/-- The JS destructuring swap `[a[i], a[j]] = [a[j], a[i]]` (both reads
happen before the writes). -/
def listSwap {α : Type} (l : List α) (i j : ℕ) : List α :=
  match l[i]?, l[j]? with
  | some a, some b => (l.set i b).set j a
  | _, _ => l

/-- The Fisher–Yates loop, from index `i` down to 1, consuming draw `k`
first. -/
def fyAux {α : Type} (draw : ℕ → ℚ) : ℕ → ℕ → List α → List α
  | _, 0, l => l
  | k, i + 1, l =>
    fyAux draw (k + 1) i
      (listSwap l (i + 1) (floorNat (draw k * ((i : ℚ) + 2))))

/-- Fisher–Yates shuffle driven by a stream of draws. -/
def fisherYates {α : Type} (draw : ℕ → ℚ) (l : List α) : List α :=
  fyAux draw 0 (l.length - 1) l

/-- `shuffleArray(array, seed?)`: a truthy seed installs the seeded
generator, otherwise (absent *or zero*) `Math.random` — modelled as an
arbitrary oracle stream of draws — is used. -/
def shuffleArray {α : Type} (l : List α) (seed : Option ℕ)
    (oracle : ℕ → ℚ) : List α :=
  fisherYates
    (match seed with
     | some s => if s ≠ 0 then lcgDraw s else oracle
     | none => oracle) l

/-! ## Helper definitions used by the statements -/

/-- The ids of the options marked correct. -/
def correctIdsOf (opts : List MultipleChoiceOption) : List String :=
  (opts.filter (·.isCorrect)).map (·.id)

/-- Whether a question config is the essay variant. -/
def isEssayCfg : QuestionConfig → Bool
  | .essay _ => true
  | _ => false

/-- The grading result `gradeQuiz` associates to one configured question:
the zero "no answer" result when the answers map has no entry, else the
result of `gradeQuestion`. -/
def perResult (answers : List (String × QuestionAnswer))
    (q : QuestionConfig) : GradingResult :=
  match mapGet answers q.qid with
  | none => noAnswerResult q.points
  | some a => gradeQuestion q a

/-- The sum of the scores of a list of submissions (an unset score counts
as 0). -/
def subScoreSum (subs : List QuestionSubmission) : JSNum :=
  subs.foldl (fun t sub => jsAdd t (sub.score.getD (.fin 0))) (.fin 0)

/-- Whether every multi-select multiple-choice config has at least one
option marked correct (other variants impose nothing). -/
def multiCorrectNonempty : QuestionConfig → Bool
  | .multipleChoice mc =>
    !mc.allowMultiple || !(correctIdsOf mc.options).isEmpty
  | _ => true

/-- Whether an array-valued answer contains no duplicate selections (other
values impose nothing). -/
def selectionNodupB : JSValue → Bool
  | .vArr sel => decide sel.Nodup
  | _ => true

/-- `hasNext` in `canGoNext`: not on the last question. -/
def hasNextQ (s : QuizState) : Bool :=
  decide (s.currentQuestionIndex < s.config.questions.length - 1)

/-- Whether the current question has an answered entry in the answers
map. -/
def currentAnswered (s : QuizState) : Bool :=
  match (currentQuestion s).bind (fun q => mapGet s.answers q.qid) with
  | some a => a.isAnswered
  | none => false

/-- States reachable from a fresh session by state-machine operations in
which `setAnswer` is only invoked with a configured question id (all other
operations are unrestricted). -/
inductive ValidReach (cfg : QuizConfig) : QuizState → Prop where
  | init : ValidReach cfg (initState cfg)
  | stepSetAnswer {s : QuizState} (questionId : String) (a : QuestionAnswer)
      (hq : questionId ∈ questionIds cfg) (h : ValidReach cfg s) :
      ValidReach cfg (setAnswer s questionId a)
  | stepClearAnswer {s : QuizState} (questionId : String)
      (h : ValidReach cfg s) : ValidReach cfg (clearAnswer s questionId)
  | stepClearAll {s : QuizState} (h : ValidReach cfg s) :
      ValidReach cfg (clearAllAnswers s)
  | stepGoTo {s : QuizState} (index : ℤ) (h : ValidReach cfg s) :
      ValidReach cfg (goToQuestion s index)
  | stepNext {s : QuizState} (h : ValidReach cfg s) :
      ValidReach cfg (nextQuestion s)
  | stepPrev {s : QuizState} (h : ValidReach cfg s) :
      ValidReach cfg (previousQuestion s)
  | stepSubmitQuestion {s : QuizState} (questionId : String)
      (h : ValidReach cfg s) : ValidReach cfg (submitQuestion s questionId)
  | stepSubmitQuiz {s : QuizState} (h : ValidReach cfg s) :
      ValidReach cfg (submitQuiz s).2

/-! ## Map lemmas -/

theorem mapGet_mapSet_self {β : Type} (m : List (String × β)) (k : String)
    (v : β) : mapGet (mapSet m k v) k = some v := by
  induction m with
  | nil => simp [mapSet, mapGet]
  | cons p rest ih =>
    by_cases h : p.1 = k
    · simp [mapSet, h, mapGet]
    · simp [mapSet, h, mapGet, ih]

theorem mapGet_mapDelete_self {β : Type} (m : List (String × β))
    (k : String) : mapGet (mapDelete m k) k = none := by
  induction m with
  | nil => simp [mapDelete, mapGet]
  | cons p rest ih =>
    by_cases h : p.1 = k
    · simpa [mapDelete, h, mapGet] using ih
    · simpa [mapDelete, h, mapGet] using ih

theorem mem_mapSet {β : Type} (m : List (String × β)) (k : String) (v : β) :
    ∀ p ∈ mapSet m k v, p ∈ m ∨ p.1 = k := by
  induction m with
  | nil => intro p hp; simp [mapSet] at hp; subst hp; simp
  | cons q rest ih =>
    intro p hp
    by_cases h : q.1 = k
    · simp [mapSet, h] at hp
      rcases hp with hp | hp
      · subst hp; simp
      · exact Or.inl (List.mem_cons_of_mem _ hp)
    · simp [mapSet, h] at hp
      rcases hp with hp | hp
      · exact Or.inl (by simp [hp])
      · rcases ih p hp with h1 | h1
        · exact Or.inl (List.mem_cons_of_mem _ h1)
        · exact Or.inr h1

theorem mem_mapDelete {β : Type} (m : List (String × β)) (k : String) :
    ∀ p ∈ mapDelete m k, p ∈ m := by
  intro p hp
  exact List.mem_of_mem_filter hp

theorem mapGet_mem {β : Type} (m : List (String × β)) (k : String) (v : β)
    (h : mapGet m k = some v) : (k, v) ∈ m := by
  induction m with
  | nil => simp [mapGet] at h
  | cons p rest ih =>
    by_cases hk : p.1 = k
    · simp [mapGet, hk] at h
      subst hk
      subst h
      exact List.mem_cons_self _ _
    · simp [mapGet, hk] at h
      exact List.mem_cons_of_mem _ (ih h)

/-! ## JSNum lemmas -/

theorem jsAdd_fin_zero (x : JSNum) : jsAdd x (.fin 0) = x := by
  cases x <;> simp [jsAdd]

theorem jsOr0_of_isFin (x : JSNum) (h : isFin x = true) : jsOr0 x = x := by
  cases x with
  | fin q => rfl
  | nan => simp [isFin] at h
  | inf => rfl
  | ninf => rfl

/-! ## Claim C9 — percentComplete with zero questions (code bug)

The spec requires `percentComplete = answeredQuestions/totalQuestions*100`
with the division by zero guarded so that a zero-question configuration
yields 0%.  The source computes `(answeredQuestions / totalQuestions) * 100`
with no guard, and in JavaScript `0 / 0` is NaN, so a zero-question quiz
reports a NaN progress percentage instead of 0. -/

/-- A quiz configuration with no questions. -/
def cfgNoQuestions : QuizConfig :=
  { id := "quiz-empty", questions := [], allowNavigation := false,
    allowSkip := false, requireAllAnswered := false, passingScore := none,
    timeLimit := none }

/-- Claim C9: on a configuration with zero questions the derived progress has
`percentComplete = NaN` (JS `0/0*100`), not the guarded 0 the spec
describes: the divide-by-zero guard is absent from the code. -/
theorem progress_zero_questions_nan :
    (progressOf (initState cfgNoQuestions)).percentComplete = JSNum.nan
    ∧ (progressOf (initState cfgNoQuestions)).percentComplete ≠ .fin 0 := by
  constructor <;> decide

/-! ## Claim C10 — zero-part questions grade as fully correct -/

/-- Claim C10: a fill-in-blank question whose segments contain no blanks, and a
matching question with no pairs, grade an answered non-empty answer as
fully correct (`isCorrect = true`) with score 0. -/
theorem zero_parts_graded_fully_correct
    (fib : FillInBlankConfig) (mat : MatchingConfig)
    (a b : QuestionAnswer)
    (hf : fib.segments.filter FillSegment.isBlank = [])
    (hm : mat.pairs = [])
    (ha : a.isAnswered = true) (hav : truthy a.value = true)
    (hb : b.isAnswered = true) (hbv : truthy b.value = true) :
    gradeQuestion (.fillInBlank fib) a =
      { isCorrect := true, isPartiallyCorrect := false, score := .fin 0,
        maxScore := fib.points, feedback := none }
    ∧ gradeQuestion (.matching mat) b =
      { isCorrect := true, isPartiallyCorrect := false, score := .fin 0,
        maxScore := mat.points, feedback := none } := by
  constructor
  · simp [gradeQuestion, gradeFillInBlank, ha, hav, hf]
  · simp [gradeQuestion, gradeMatching, hb, hbv, hm]

/-- A fill-in-blank config whose segments are all text. -/
def fibNoBlanks : FillInBlankConfig :=
  { id := "f1", points := 4, segments := [FillSegment.text "hello"] }

/-- A matching config with no pairs. -/
def matNoPairs : MatchingConfig := { id := "m1", points := 4, pairs := [] }

/-- Witness for C10 at concrete zero-part configs with non-empty answers. -/
theorem zero_parts_graded_fully_correct_witness :
    gradeQuestion (.fillInBlank fibNoBlanks)
      { questionId := "f1", value := .vRec [("x", "y")], isAnswered := true,
        attemptNumber := 1 } =
      { isCorrect := true, isPartiallyCorrect := false, score := .fin 0,
        maxScore := 4, feedback := none }
    ∧ gradeQuestion (.matching matNoPairs)
      { questionId := "m1", value := .vRec [("x", "y")], isAnswered := true,
        attemptNumber := 1 } =
      { isCorrect := true, isPartiallyCorrect := false, score := .fin 0,
        maxScore := 4, feedback := none } :=
  zero_parts_graded_fully_correct fibNoBlanks matNoPairs _ _
    (by decide) (by decide) (by decide) (by decide) (by decide) (by decide)

/-! ## Claim C4 — the "no answer provided" default (corrected)

The essay branch of `gradeQuestion` never inspects the answer: it always
returns the manual-grading result, so an unanswered essay gets feedback
"This question requires manual grading", not "No answer provided".  For the
other five variants an unanswered or null/undefined value does yield the
uniform default. -/

/-- Claim C4 counterexample: an unanswered essay. -/
def unansweredEssay : QuestionAnswer :=
  { questionId := "e1", value := .vNull, isAnswered := false,
    attemptNumber := 1 }

/-- Claim C4 counterexample: grading an unanswered essay question returns the
manual-grading feedback, not the claimed "No answer provided". -/
theorem essay_no_answer_feedback_differs :
    (gradeQuestion (.essay { id := "e1", points := 2 })
      unansweredEssay).feedback ≠ some "No answer provided"
    ∧ (gradeQuestion (.essay { id := "e1", points := 2 })
      unansweredEssay).feedback
      = some "This question requires manual grading" := by
  constructor <;> decide

/-- Claim C4 amended: for every variant except essay, an answer with
`isAnswered = false` or a null/undefined value yields the uniform
`score = 0`, `isCorrect = false`, `isPartiallyCorrect = false`,
`feedback = "No answer provided"` result; the essay branch instead returns
the same zero result with the manual-grading feedback regardless of the
answer. -/
theorem gradeQuestion_no_answer_default (cfg : QuestionConfig)
    (a : QuestionAnswer)
    (hna : a.isAnswered = false ∨ a.value = .vNull ∨ a.value = .vUndef) :
    (isEssayCfg cfg = false →
      gradeQuestion cfg a =
        { isCorrect := false, isPartiallyCorrect := false, score := .fin 0,
          maxScore := cfg.points, feedback := some "No answer provided" })
    ∧ (isEssayCfg cfg = true →
      gradeQuestion cfg a =
        { isCorrect := false, isPartiallyCorrect := false, score := .fin 0,
          maxScore := cfg.points,
          feedback := some "This question requires manual grading" }) := by
  cases cfg with
  | multipleChoice c =>
    refine ⟨fun _ => ?_, fun h => by simp [isEssayCfg] at h⟩
    rcases hna with h | h | h <;>
      simp [gradeQuestion, gradeMultipleChoice, mcUserAnswers, truthy, h,
        QuestionConfig.points]
  | trueFalse c =>
    refine ⟨fun _ => ?_, fun h => by simp [isEssayCfg] at h⟩
    rcases hna with h | h | h <;>
      simp [gradeQuestion, gradeTrueFalse, h, QuestionConfig.points]
  | shortAnswer c =>
    refine ⟨fun _ => ?_, fun h => by simp [isEssayCfg] at h⟩
    rcases hna with h | h | h <;>
      simp [gradeQuestion, gradeShortAnswer, truthy, h,
        QuestionConfig.points]
  | essay c =>
    refine ⟨fun h => by simp [isEssayCfg] at h, fun _ => ?_⟩
    simp [gradeQuestion, QuestionConfig.points]
  | fillInBlank c =>
    refine ⟨fun _ => ?_, fun h => by simp [isEssayCfg] at h⟩
    rcases hna with h | h | h <;>
      simp [gradeQuestion, gradeFillInBlank, truthy, h,
        QuestionConfig.points]
  | matching c =>
    refine ⟨fun _ => ?_, fun h => by simp [isEssayCfg] at h⟩
    rcases hna with h | h | h <;>
      simp [gradeQuestion, gradeMatching, truthy, h, QuestionConfig.points]

/-- A true/false config used by the C4 witness. -/
def tfW : TrueFalseConfig := { id := "t1", points := 3, correctAnswer := true }

/-- An unanswered true/false answer used by the C4 witness. -/
def tfWAnswer : QuestionAnswer :=
  { questionId := "t1", value := .vNull, isAnswered := false,
    attemptNumber := 1 }

/-- Witness for C4 at a concrete unanswered true/false question. -/
theorem gradeQuestion_no_answer_default_witness :
    gradeQuestion (.trueFalse tfW) tfWAnswer =
      { isCorrect := false, isPartiallyCorrect := false, score := .fin 0,
        maxScore := 3, feedback := some "No answer provided" } :=
  (gradeQuestion_no_answer_default (.trueFalse tfW) tfWAnswer
    (Or.inl rfl)).1 rfl

/-! ## Claim C8 — seeded shuffle determinism (corrected)

`shuffleArray` selects the random source with `seed ? seededRandom(seed) :
Math.random`, and `0` is falsy in JavaScript: a supplied seed of `0` does
not install the linear-congruential generator, so the shuffle consults the
platform random source and is not deterministic.  For every nonzero seed
the LCG replaces the platform source and the permutation is fully
determined by the seed. -/

/-- Claim C8 counterexample: with supplied seed 0 the shuffle depends on the
platform random source (two different oracles give different
permutations). -/
theorem shuffle_seed_zero_nondeterministic :
    shuffleArray ([0, 1] : List ℕ) (some 0) (fun _ => 0)
      ≠ shuffleArray ([0, 1] : List ℕ) (some 0) (fun _ => (1 : ℚ) / 2) := by
  have h1 : shuffleArray ([0, 1] : List ℕ) (some 0) (fun _ => 0) = [1, 0] :=
    by norm_num [shuffleArray, fisherYates, fyAux, listSwap, floorNat]
  have h2 : shuffleArray ([0, 1] : List ℕ) (some 0)
      (fun _ => (1 : ℚ) / 2) = [0, 1] :=
    by norm_num [shuffleArray, fisherYates, fyAux, listSwap, floorNat]
  rw [h1, h2]
  decide

/-- Claim C8 amended: for every input list and every *nonzero* supplied seed the
shuffle ignores the platform random source (any two oracles give the same
permutation), and the seeded draws follow the linear-congruential
recurrence `seed = (seed*9301 + 49297) mod 233280`, each call emitting
`seed/233280`. -/
theorem shuffle_nonzero_seed_deterministic (α : Type) (l : List α) (s : ℕ)
    (hs : s ≠ 0) (o1 o2 : ℕ → ℚ) :
    shuffleArray l (some s) o1 = shuffleArray l (some s) o2
    ∧ (∀ k, lcgState s (k + 1) = (lcgState s k * 9301 + 49297) % 233280)
    ∧ (∀ k, lcgDraw s k = (lcgState s k : ℚ) / 233280) := by
  refine ⟨by simp [shuffleArray, hs], fun k => ?_, fun k => rfl⟩
  show lcgNext^[k + 1 + 1] s = _
  rw [Function.iterate_succ_apply']
  rfl

/-- Witness for C8: the same nonzero seed gives the same permutation under
two different oracles. -/
theorem shuffle_nonzero_seed_deterministic_witness :
    shuffleArray [0, 1, 2] (some 7) (fun _ => 0)
      = shuffleArray [0, 1, 2] (some 7) (fun _ => (1 : ℚ) / 2) :=
  (shuffle_nonzero_seed_deterministic ℕ [0, 1, 2] 7 (by decide)
    (fun _ => 0) (fun _ => (1 : ℚ) / 2)).1

/-! ## State-machine bookkeeping lemmas -/

theorem goToQuestion_answers (s : QuizState) (i : ℤ) :
    (goToQuestion s i).answers = s.answers := by
  unfold goToQuestion
  split <;> rfl

theorem nextQuestion_answers (s : QuizState) :
    (nextQuestion s).answers = s.answers := by
  unfold nextQuestion
  split <;> rfl

theorem previousQuestion_answers (s : QuizState) :
    (previousQuestion s).answers = s.answers := by
  unfold previousQuestion
  split <;> rfl

theorem submitQuestion_answers (s : QuizState) (questionId : String) :
    (submitQuestion s questionId).answers = s.answers := by
  unfold submitQuestion
  cases mapGet s.answers questionId with
  | none => rfl
  | some a =>
    cases s.config.questions.find? (fun q => q.qid == questionId) with
    | none => rfl
    | some q => rfl

theorem submitQuiz_state_answers (s : QuizState) :
    (submitQuiz s).2.answers = s.answers := rfl

/-! ## Claim C5 — answers map only holds configured ids (corrected)

`setAnswer` stores whatever question id it is given without checking it
against `config.questions`, so a single `setAnswer` with an unknown id
already puts a non-configured entry into the answers map.  The invariant
does hold for every operation sequence in which `setAnswer` is only called
with configured ids, since no other operation can introduce an entry. -/

/-- A one-point true/false question used by the state-machine claims. -/
def tfQ1 : QuestionConfig :=
  QuestionConfig.trueFalse { id := "q1", points := 1, correctAnswer := true }

/-- A one-question configuration shared by the state-machine claims. -/
def cfgOneTF : QuizConfig :=
  { id := "quiz1", questions := [tfQ1], allowNavigation := false,
    allowSkip := false, requireAllAnswered := false, passingScore := none,
    timeLimit := none }

/-- An answer for a question id that is not configured. -/
def bogusAnswer : QuestionAnswer :=
  { questionId := "zz", value := .vBool true, isAnswered := true,
    attemptNumber := 1 }

/-- Claim C5 counterexample: `setAnswer` with an arbitrary (non-configured)
question id records the entry, so a reachable state violates the claimed
invariant. -/
theorem setAnswer_unknown_id_recorded :
    mapGet (setAnswer (initState cfgOneTF) "zz" bogusAnswer).answers "zz"
      = some bogusAnswer
    ∧ "zz" ∉ questionIds cfgOneTF := by
  constructor <;> decide

/-- Claim C5 amended: in every state reachable from a fresh session by
state-machine operations in which `setAnswer` is only invoked with
configured question ids, the answers map contains no entry whose question
id is not present in `config.questions` (the code itself performs no such
validation, so the restriction on callers is what the invariant relies
on). -/
theorem reachable_answers_configured (cfg : QuizConfig) (s : QuizState)
    (h : ValidReach cfg s) :
    ∀ p ∈ s.answers, p.1 ∈ questionIds cfg := by
  induction h with
  | init => intro p hp; simp [initState] at hp
  | stepSetAnswer questionId a hq _ ih =>
    intro p hp
    rcases mem_mapSet _ _ _ p hp with h1 | h1
    · exact ih p h1
    · rw [h1]; exact hq
  | stepClearAnswer questionId _ ih =>
    intro p hp
    exact ih p (mem_mapDelete _ _ p hp)
  | stepClearAll _ ih => intro p hp; simp [clearAllAnswers] at hp
  | stepGoTo index _ ih =>
    intro p hp
    rw [goToQuestion_answers] at hp
    exact ih p hp
  | stepNext _ ih =>
    intro p hp
    rw [nextQuestion_answers] at hp
    exact ih p hp
  | stepPrev _ ih =>
    intro p hp
    rw [previousQuestion_answers] at hp
    exact ih p hp
  | stepSubmitQuestion questionId _ ih =>
    intro p hp
    rw [submitQuestion_answers] at hp
    exact ih p hp
  | stepSubmitQuiz _ ih =>
    intro p hp
    rw [submitQuiz_state_answers] at hp
    exact ih p hp

/-- An answer for the configured question `q1`. -/
def q1Answer : QuestionAnswer :=
  { questionId := "q1", value := .vBool true, isAnswered := true,
    attemptNumber := 1 }

/-- Witness for C5: after a validated `setAnswer` the recorded entry's id
is configured. -/
theorem reachable_answers_configured_witness :
    "q1" ∈ questionIds cfgOneTF :=
  reachable_answers_configured cfgOneTF _
    (ValidReach.stepSetAnswer "q1" q1Answer (by decide) ValidReach.init)
    ("q1", q1Answer) (by decide)

/-! ## Claim C6 — terminal status and answer mutation (corrected)

Neither `setAnswer` nor `clearAnswer` checks the status: after the quiz is
`graded`, `setAnswer` still replaces the entry and `clearAnswer` still
removes it.  What the terminal status does gate is `canSubmitQuiz`, which
becomes false. -/

/-- An edited answer distinct from `q1Answer`. -/
def q1AnswerEdited : QuestionAnswer :=
  { questionId := "q1", value := .vBool false, isAnswered := true,
    attemptNumber := 1 }

/-- Claim C6 counterexample: after `submitQuiz` the status is `graded`, yet
`setAnswer` still mutates the answers map. -/
theorem setAnswer_mutates_after_graded :
    (submitQuiz (setAnswer (initState cfgOneTF) "q1" q1Answer)).2.status
      = Status.graded
    ∧ (setAnswer
        (submitQuiz (setAnswer (initState cfgOneTF) "q1" q1Answer)).2
        "q1" q1AnswerEdited).answers
      ≠ (submitQuiz (setAnswer (initState cfgOneTF) "q1" q1Answer)).2.answers
      := by
  constructor
  · rfl
  · rw [submitQuiz_state_answers]
    decide

/-- Claim C6 amended: once the status is `submitted` or `graded`,
`canSubmitQuiz` is false, but the state machine does not gate answer
mutation: `setAnswer` still stores the given entry and `clearAnswer` still
removes it. -/
theorem terminal_status_gating (s : QuizState) (questionId : String)
    (a : QuestionAnswer)
    (h : s.status = .submitted ∨ s.status = .graded) :
    canSubmitQuiz s = false
    ∧ mapGet (setAnswer s questionId a).answers questionId = some a
    ∧ mapGet (clearAnswer s questionId).answers questionId = none := by
  refine ⟨?_, ?_, ?_⟩
  · rcases h with h | h <;> simp [canSubmitQuiz, h]
  · exact mapGet_mapSet_self _ _ _
  · exact mapGet_mapDelete_self _ _

/-- Witness for C6 at the concrete graded state. -/
theorem terminal_status_gating_witness :
    canSubmitQuiz
      (submitQuiz (setAnswer (initState cfgOneTF) "q1" q1Answer)).2 = false
    ∧ mapGet (setAnswer
        (submitQuiz (setAnswer (initState cfgOneTF) "q1" q1Answer)).2
        "q1" q1AnswerEdited).answers "q1" = some q1AnswerEdited
    ∧ mapGet (clearAnswer
        (submitQuiz (setAnswer (initState cfgOneTF) "q1" q1Answer)).2
        "q1").answers "q1" = none :=
  terminal_status_gating _ "q1" q1AnswerEdited (Or.inr rfl)

/-! ## Claim C7 — canGoNext characterisation (confirmed) -/

/-- Claim C7: `canGoNext` is true iff the current question is not the last and
(navigation is allowed, or skipping is allowed, or the current question has
an answered entry); and immediately after `setAnswer` stores an answered
entry for the current question, `canGoNext` equals `hasNext` (so it is true
whenever a next question exists, in particular with
`allowNavigation = false` and `allowSkip = false`). -/
theorem canGoNext_characterisation (s : QuizState) (q : QuestionConfig)
    (a : QuestionAnswer)
    (hq : currentQuestion s = some q) (ha : a.isAnswered = true) :
    canGoNext s
      = (hasNextQ s && (s.config.allowNavigation || s.config.allowSkip
          || currentAnswered s))
    ∧ canGoNext (setAnswer s q.qid a) = hasNextQ s := by
  have hcur : currentQuestion (setAnswer s q.qid a) = some q := by
    simpa [currentQuestion, setAnswer] using hq
  constructor
  · unfold canGoNext currentAnswered hasNextQ
    cases hs : s.config.allowSkip <;> cases hn : s.config.allowNavigation
      <;> simp [hs, hn]
  · unfold canGoNext hasNextQ
    cases hs : s.config.allowSkip with
    | false =>
      cases hn : s.config.allowNavigation with
      | false =>
        simp only [setAnswer, currentQuestion] at hcur
        simp [setAnswer, hs, hn, currentQuestion, hcur,
          mapGet_mapSet_self, ha]
      | true => simp [setAnswer, hs, hn]
    | true => simp [setAnswer, hs]

/-- A second true/false question for the two-question quiz. -/
def tfQ2 : QuestionConfig :=
  QuestionConfig.trueFalse { id := "q2", points := 1, correctAnswer := false }

/-- A two-question configuration with navigation and skipping disabled. -/
def cfgTwoLinear : QuizConfig :=
  { id := "quiz2", questions := [tfQ1, tfQ2], allowNavigation := false,
    allowSkip := false, requireAllAnswered := false, passingScore := none,
    timeLimit := none }

/-- Witness for C7 on the two-question linear quiz: before answering,
`canGoNext` is false; after `setAnswer` stores an answered entry for the
current question it is true. -/
theorem canGoNext_characterisation_witness :
    canGoNext (initState cfgTwoLinear)
      = (hasNextQ (initState cfgTwoLinear)
          && ((initState cfgTwoLinear).config.allowNavigation
            || (initState cfgTwoLinear).config.allowSkip
            || currentAnswered (initState cfgTwoLinear)))
    ∧ canGoNext (setAnswer (initState cfgTwoLinear) (tfQ1.qid) q1Answer)
      = hasNextQ (initState cfgTwoLinear) :=
  canGoNext_characterisation (initState cfgTwoLinear) tfQ1 q1Answer
    (by decide) (by decide)

/-! ## Claim C2 — multi-select partial credit (confirmed) -/

theorem full_flag_iff (c C i : ℕ) :
    ((c == C) && (i == 0)) = true ↔ (c = C ∧ i = 0) := by
  simp

theorem partial_flag_iff (c C i : ℕ) :
    (decide (0 < c) && !((c == C) && (i == 0))) = true
      ↔ (0 < c ∧ ¬(c = C ∧ i = 0)) := by
  by_cases h1 : c = C <;> by_cases h2 : i = 0 <;> by_cases h3 : 0 < c <;>
    simp [h1, h2, h3]

/-- Claim C2: for a multi-select multiple-choice question with a non-empty
correct-option set and a non-empty selection, the score is
`max(0, correct/C - incorrect/C) * points`, full credit holds iff all `C`
correct options and no incorrect one are selected, and partial credit holds
iff at least one correct option is selected without being fully correct. -/
theorem multi_select_partial_credit
    (mc : MultipleChoiceConfig) (a : QuestionAnswer) (sel : List String)
    (hm : mc.allowMultiple = true)
    (hv : a.value = .vArr sel)
    (ha : a.isAnswered = true)
    (hne : sel ≠ [])
    (hC : correctIdsOf mc.options ≠ []) :
    (gradeQuestion (.multipleChoice mc) a).score
      = .fin (max 0
          (((sel.countP (fun x => decide (x ∈ correctIdsOf mc.options))) : ℚ)
              / ((correctIdsOf mc.options).length : ℚ)
            - ((sel.countP
                  (fun x => decide (x ∉ correctIdsOf mc.options))) : ℚ)
              / ((correctIdsOf mc.options).length : ℚ))
          * mc.points)
    ∧ ((gradeQuestion (.multipleChoice mc) a).isCorrect = true
        ↔ sel.countP (fun x => decide (x ∈ correctIdsOf mc.options))
            = (correctIdsOf mc.options).length
          ∧ sel.countP (fun x => decide (x ∉ correctIdsOf mc.options)) = 0)
    ∧ ((gradeQuestion (.multipleChoice mc) a).isPartiallyCorrect = true
        ↔ 0 < sel.countP (fun x => decide (x ∈ correctIdsOf mc.options))
          ∧ ¬(sel.countP (fun x => decide (x ∈ correctIdsOf mc.options))
              = (correctIdsOf mc.options).length
            ∧ sel.countP
                (fun x => decide (x ∉ correctIdsOf mc.options)) = 0))
    ∧ (gradeQuestion (.multipleChoice mc) a).maxScore = mc.points := by
  have hlen0 : (correctIdsOf mc.options).length ≠ 0 := by
    simpa [List.length_eq_zero] using hC
  have hlenQ : (((correctIdsOf mc.options).length : ℚ)) ≠ 0 := by
    exact_mod_cast hlen0
  have hemp : (sel.map JSValue.vStr).isEmpty = false := by
    rcases sel with _ | ⟨x, xs⟩
    · exact absurd rfl hne
    · rfl
  have hcc : (sel.map JSValue.vStr).countP
      (isCorrectSel (correctIdsOf mc.options))
      = sel.countP (fun x => decide (x ∈ correctIdsOf mc.options)) := by
    rw [List.countP_map]
    refine List.countP_congr ?_
    intro x _
    simp [isCorrectSel, Function.comp, List.elem_eq_mem]
  have hic : (sel.map JSValue.vStr).countP
      (fun v => !isCorrectSel (correctIdsOf mc.options) v)
      = sel.countP (fun x => decide (x ∉ correctIdsOf mc.options)) := by
    rw [List.countP_map]
    refine List.countP_congr ?_
    intro x _
    simp [isCorrectSel, Function.comp, List.elem_eq_mem]
  simp only [gradeQuestion, gradeMultipleChoice, hv, ha, hm, mcUserAnswers,
    Bool.not_true, Bool.false_or, hemp, Bool.not_false, if_true, if_false]
  rw [show ((mc.options.filter (fun o => o.isCorrect)).map (fun o => o.id))
      = correctIdsOf mc.options from rfl]
  rw [hcc, hic]
  simp only [jsDiv, if_neg hlenQ, jsSub, jsMax, jsMul]
  exact ⟨rfl, full_flag_iff _ _ _, partial_flag_iff _ _ _, rfl⟩

/-- A 4-option multiple-choice question with 3 correct options, worth one
point. -/
def mc34 : MultipleChoiceConfig :=
  { id := "m34", points := 1,
    options := [{ id := "a", isCorrect := true },
                { id := "b", isCorrect := true },
                { id := "c", isCorrect := true },
                { id := "d", isCorrect := false }],
    allowMultiple := true }

/-- The selection of all three correct options plus the incorrect one. -/
def ans34 : QuestionAnswer :=
  { questionId := "m34", value := .vArr ["a", "b", "c", "d"],
    isAnswered := true, attemptNumber := 1 }

/-- Witness for C2: selecting all 3 correct options out of 4 plus the 1
incorrect one yields `score = points * max(0, 3/3 - 1/3) = 2/3` with
partial (not full) credit. -/
theorem multi_select_partial_credit_witness :
    (gradeQuestion (.multipleChoice mc34) ans34).score = .fin ((2 : ℚ) / 3)
    ∧ (gradeQuestion (.multipleChoice mc34) ans34).isCorrect = false
    ∧ (gradeQuestion (.multipleChoice mc34) ans34).isPartiallyCorrect
        = true := by
  have h := multi_select_partial_credit mc34 ans34 ["a", "b", "c", "d"]
    rfl rfl rfl (by decide) (by decide)
  refine ⟨?_, by decide, by decide⟩
  rw [h.1]
  have hc : (["a", "b", "c", "d"].countP
      (fun x => decide (x ∈ correctIdsOf mc34.options))) = 3 := by decide
  have hi : (["a", "b", "c", "d"].countP
      (fun x => decide (x ∉ correctIdsOf mc34.options))) = 1 := by decide
  have hC3 : (correctIdsOf mc34.options).length = 3 := by decide
  rw [hc, hi, hC3]
  norm_num [mc34]

/-! ## Claim C3 — score bounds (corrected) -/

theorem bounds_of_fin_score (r : GradingResult) (p : ℚ)
    (hmax : r.maxScore = p)
    (hs : ∃ x : ℚ, r.score = .fin x ∧ 0 ≤ x ∧ x ≤ p) :
    jsLeB (.fin 0) r.score = true
    ∧ jsLeB r.score (.fin r.maxScore) = true
    ∧ r.maxScore = p := by
  obtain ⟨x, hx, h0, h1⟩ := hs
  rw [hx, hmax]
  exact ⟨by simp [jsLeB, h0], by simp [jsLeB, h1], rfl⟩

theorem frac_part_bounds (c t : ℕ) (p : ℚ) (hct : c ≤ t) (hp : 0 ≤ p) :
    0 ≤ (if 0 < t then (c : ℚ) / t else 0) * p
    ∧ (if 0 < t then (c : ℚ) / t else 0) * p ≤ p := by
  by_cases ht : 0 < t
  · have ht2 : (0 : ℚ) < t := by exact_mod_cast ht
    have h1 : (c : ℚ) / t ≤ 1 := by
      rw [div_le_one ht2]
      exact_mod_cast hct
    have h0 : 0 ≤ (c : ℚ) / t := div_nonneg (by positivity) ht2.le
    rw [if_pos ht]
    exact ⟨mul_nonneg h0 hp, mul_le_of_le_one_left hp h1⟩
  · rw [if_neg ht, zero_mul]
    exact ⟨le_refl 0, hp⟩

theorem mc_frac_bounds (c i C : ℕ) (p : ℚ) (hC : 0 < C) (hcC : c ≤ C)
    (hp : 0 ≤ p) :
    0 ≤ max 0 ((c : ℚ) / C - (i : ℚ) / C) * p
    ∧ max 0 ((c : ℚ) / C - (i : ℚ) / C) * p ≤ p := by
  have hC2 : (0 : ℚ) < C := by exact_mod_cast hC
  have h1 : (c : ℚ) / C ≤ 1 := by
    rw [div_le_one hC2]
    exact_mod_cast hcC
  have hi : 0 ≤ (i : ℚ) / C := div_nonneg (by positivity) hC2.le
  have h2 : max 0 ((c : ℚ) / C - (i : ℚ) / C) ≤ 1 :=
    max_le (by norm_num) (by linarith)
  exact ⟨mul_nonneg (le_max_left _ _) hp, mul_le_of_le_one_left hp h2⟩

theorem nodup_countP_mem_le (sel ids : List String) (h : sel.Nodup) :
    sel.countP (fun x => decide (x ∈ ids)) ≤ ids.length := by
  rw [List.countP_eq_length_filter]
  have hnd : (sel.filter (fun x => decide (x ∈ ids))).Nodup := h.filter _
  have hsub : sel.filter (fun x => decide (x ∈ ids)) ⊆ ids := by
    intro x hx
    have := List.of_mem_filter hx
    simpa using this
  calc (sel.filter (fun x => decide (x ∈ ids))).length
      = (sel.filter (fun x => decide (x ∈ ids))).toFinset.card :=
        (List.toFinset_card_of_nodup hnd).symm
    _ ≤ ids.toFinset.card :=
        Finset.card_le_card (fun x hx =>
          List.mem_toFinset.mpr (hsub (List.mem_toFinset.mp hx)))
    _ ≤ ids.length := ids.toFinset_card_le

theorem ite_fin_shape (b : Bool) (p : ℚ) (hp : 0 ≤ p) :
    ∃ x : ℚ, (if b = true then JSNum.fin p else JSNum.fin 0) = .fin x
      ∧ 0 ≤ x ∧ x ≤ p := by
  cases b
  · exact ⟨0, rfl, le_refl 0, hp⟩
  · exact ⟨p, rfl, hp, le_refl _⟩

theorem gradeTrueFalse_score_shape (c : TrueFalseConfig) (a : QuestionAnswer)
    (hp : 0 ≤ c.points) :
    (gradeTrueFalse c a).maxScore = c.points
    ∧ ∃ x : ℚ, (gradeTrueFalse c a).score = .fin x ∧ 0 ≤ x ∧ x ≤ c.points := by
  simp only [gradeTrueFalse]
  split
  · exact ⟨rfl, 0, rfl, le_refl 0, hp⟩
  · refine ⟨rfl, ?_⟩
    cases hb : (a.value == JSValue.vBool c.correctAnswer) with
    | true => exact ⟨c.points, by simp [hb], hp, le_refl _⟩
    | false => exact ⟨0, by simp [hb], le_refl 0, hp⟩

theorem countP_isCorrectSel_map (sel ids : List String) :
    (sel.map JSValue.vStr).countP (isCorrectSel ids)
      = sel.countP (fun x => decide (x ∈ ids)) := by
  rw [List.countP_map]
  refine List.countP_congr ?_
  intro x _
  simp [isCorrectSel, Function.comp, List.elem_eq_mem]

theorem countP_isCorrectSel_comp (sel ids : List String) :
    sel.countP (isCorrectSel ids ∘ JSValue.vStr)
      = sel.countP (fun x => decide (x ∈ ids)) := by
  refine List.countP_congr ?_
  intro x _
  simp [isCorrectSel, Function.comp, List.elem_eq_mem]

theorem gradeShortAnswer_score_shape (c : ShortAnswerConfig)
    (a : QuestionAnswer) (hp : 0 ≤ c.points) :
    (gradeShortAnswer c a).maxScore = c.points
    ∧ ∃ x : ℚ, (gradeShortAnswer c a).score = .fin x ∧ 0 ≤ x
        ∧ x ≤ c.points := by
  simp only [gradeShortAnswer]
  by_cases hg : (!a.isAnswered || !truthy a.value) = true
  · rw [if_pos hg]
    exact ⟨rfl, 0, rfl, le_refl 0, hp⟩
  · rw [if_neg hg]
    cases hca : c.correctAnswers with
    | none => exact ⟨rfl, 0, rfl, le_refl 0, hp⟩
    | some l =>
      dsimp only
      by_cases hl : l.isEmpty = true
      · rw [if_pos hl]
        exact ⟨rfl, 0, rfl, le_refl 0, hp⟩
      · rw [if_neg hl]
        refine ⟨rfl, ?_⟩
        by_cases hb : (l.any fun cand =>
            saNormalize c (jsToString a.value) == saNormalize c cand) = true
        · rw [if_pos hb]
          exact ⟨c.points, rfl, hp, le_refl _⟩
        · rw [if_neg hb]
          exact ⟨0, rfl, le_refl 0, hp⟩

theorem gradeFillInBlank_score_shape (c : FillInBlankConfig)
    (a : QuestionAnswer) (hp : 0 ≤ c.points) :
    (gradeFillInBlank c a).maxScore = c.points
    ∧ ∃ x : ℚ, (gradeFillInBlank c a).score = .fin x ∧ 0 ≤ x
        ∧ x ≤ c.points := by
  simp only [gradeFillInBlank]
  split
  · exact ⟨rfl, 0, rfl, le_refl 0, hp⟩
  · obtain ⟨h1, h2⟩ := frac_part_bounds
      ((c.segments.filter FillSegment.isBlank).countP (blankCorrect a.value))
      (c.segments.filter FillSegment.isBlank).length c.points
      (List.countP_le_length _) hp
    exact ⟨rfl, _, rfl, h1, h2⟩

theorem gradeMatching_score_shape (c : MatchingConfig)
    (a : QuestionAnswer) (hp : 0 ≤ c.points) :
    (gradeMatching c a).maxScore = c.points
    ∧ ∃ x : ℚ, (gradeMatching c a).score = .fin x ∧ 0 ≤ x
        ∧ x ≤ c.points := by
  simp only [gradeMatching]
  split
  · exact ⟨rfl, 0, rfl, le_refl 0, hp⟩
  · obtain ⟨h1, h2⟩ := frac_part_bounds
      (c.pairs.countP (fun pair =>
        match recGet a.value pair.id with
        | some r => r == pair.right
        | none => false))
      c.pairs.length c.points (List.countP_le_length _) hp
    exact ⟨rfl, _, rfl, h1, h2⟩

theorem gradeMultipleChoice_score_shape (c : MultipleChoiceConfig)
    (a : QuestionAnswer) (hp : 0 ≤ c.points)
    (hne : c.allowMultiple = true → correctIdsOf c.options ≠ [])
    (hsel : selectionNodupB a.value = true) :
    (gradeMultipleChoice c a).maxScore = c.points
    ∧ ∃ x : ℚ, (gradeMultipleChoice c a).score = .fin x ∧ 0 ≤ x
        ∧ x ≤ c.points := by
  simp only [gradeMultipleChoice]
  split
  · exact ⟨rfl, 0, rfl, le_refl 0, hp⟩
  · split
    · -- single select
      exact ⟨rfl, ite_fin_shape _ c.points hp⟩
    · -- multi select
      rename_i hg hmulti
      have hm : c.allowMultiple = true := by simpa using hmulti
      have hids : correctIdsOf c.options ≠ [] := hne hm
      have hC : 0 < (correctIdsOf c.options).length :=
        List.length_pos.mpr hids
      have hcast : (((correctIdsOf c.options).length : ℚ)) ≠ 0 := by
        exact_mod_cast Nat.pos_iff_ne_zero.mp hC
      have hcC : (mcUserAnswers a.value).countP
          (isCorrectSel (correctIdsOf c.options))
          ≤ (correctIdsOf c.options).length := by
        cases hv : a.value with
        | vArr sel =>
          have hnd : sel.Nodup := by
            simpa [selectionNodupB, hv] using hsel
          simpa [mcUserAnswers, countP_isCorrectSel_map,
            countP_isCorrectSel_comp] using
            nodup_countP_mem_le sel (correctIdsOf c.options) hnd
        | vNull =>
          refine le_trans (List.countP_le_length _) ?_
          simp only [mcUserAnswers]
          split <;> simp only [List.length_cons, List.length_nil] <;> omega
        | vUndef =>
          refine le_trans (List.countP_le_length _) ?_
          simp only [mcUserAnswers]
          split <;> simp only [List.length_cons, List.length_nil] <;> omega
        | vBool b =>
          refine le_trans (List.countP_le_length _) ?_
          simp only [mcUserAnswers]
          split <;> simp only [List.length_cons, List.length_nil] <;> omega
        | vStr s2 =>
          refine le_trans (List.countP_le_length _) ?_
          simp only [mcUserAnswers]
          split <;> simp only [List.length_cons, List.length_nil] <;> omega
        | vRec m =>
          refine le_trans (List.countP_le_length _) ?_
          simp only [mcUserAnswers]
          split <;> simp only [List.length_cons, List.length_nil] <;> omega
      rw [show ((c.options.filter (fun o => o.isCorrect)).map (fun o => o.id))
          = correctIdsOf c.options from rfl]
      refine ⟨rfl, ?_⟩
      simp only [jsDiv, if_neg hcast, jsSub, jsMax, jsMul]
      obtain ⟨h1, h2⟩ := mc_frac_bounds
        ((mcUserAnswers a.value).countP
          (isCorrectSel (correctIdsOf c.options)))
        ((mcUserAnswers a.value).countP
          (fun v => !isCorrectSel (correctIdsOf c.options) v))
        ((correctIdsOf c.options).length) c.points hC hcC hp
      exact ⟨_, rfl, h1, h2⟩

/-- Claim C3 amended: for every question configuration with nonnegative
points whose multi-select multiple-choice variant has at least one option
marked correct, and every answer whose array value contains no duplicate
selections, the grading result satisfies `0 <= score <= maxScore` with
`maxScore` equal to the configured points.  (Without the extra conditions
the bound fails: a zero-correct-option multi-select divides by zero and
scores NaN.) -/
theorem gradeQuestion_score_in_range (cfg : QuestionConfig)
    (a : QuestionAnswer)
    (hp : 0 ≤ cfg.points)
    (hmc : multiCorrectNonempty cfg = true)
    (hsel : selectionNodupB a.value = true) :
    jsLeB (.fin 0) (gradeQuestion cfg a).score = true
    ∧ jsLeB (gradeQuestion cfg a).score
        (.fin (gradeQuestion cfg a).maxScore) = true
    ∧ (gradeQuestion cfg a).maxScore = cfg.points := by
  cases cfg with
  | multipleChoice c =>
    have hne : c.allowMultiple = true → correctIdsOf c.options ≠ [] := by
      intro hm
      have h2 := hmc
      simp [multiCorrectNonempty, hm] at h2
      simpa [List.isEmpty_iff] using h2
    obtain ⟨hmax, hs⟩ := gradeMultipleChoice_score_shape c a hp hne hsel
    exact bounds_of_fin_score _ _ hmax hs
  | trueFalse c =>
    obtain ⟨hmax, hs⟩ := gradeTrueFalse_score_shape c a hp
    exact bounds_of_fin_score _ _ hmax hs
  | shortAnswer c =>
    obtain ⟨hmax, hs⟩ := gradeShortAnswer_score_shape c a hp
    exact bounds_of_fin_score _ _ hmax hs
  | essay c =>
    exact bounds_of_fin_score _ _ rfl ⟨0, rfl, le_refl 0, hp⟩
  | fillInBlank c =>
    obtain ⟨hmax, hs⟩ := gradeFillInBlank_score_shape c a hp
    exact bounds_of_fin_score _ _ hmax hs
  | matching c =>
    obtain ⟨hmax, hs⟩ := gradeMatching_score_shape c a hp
    exact bounds_of_fin_score _ _ hmax hs

/-- A multi-select multiple-choice config with no option marked correct. -/
def mcNoCorrect : MultipleChoiceConfig :=
  { id := "mz", points := 1,
    options := [{ id := "a", isCorrect := false },
                { id := "b", isCorrect := false }],
    allowMultiple := true }

/-- A non-empty selection for `mcNoCorrect`. -/
def ansSelA : QuestionAnswer :=
  { questionId := "mz", value := .vArr ["a"], isAnswered := true,
    attemptNumber := 1 }

/-- Claim C3 counterexample: grading a non-empty answer against a
multi-select question with zero correct options computes `0/0` (JS NaN), so
the score is NaN and `0 <= score` is false. -/
theorem gradeQuestion_score_nan_unbounded :
    (gradeQuestion (.multipleChoice mcNoCorrect) ansSelA).score = JSNum.nan
    ∧ jsLeB (.fin 0)
        (gradeQuestion (.multipleChoice mcNoCorrect) ansSelA).score
        = false := by
  constructor <;> decide

/-- Witness for C3 at the concrete 3-of-4 multi-select question. -/
theorem gradeQuestion_score_in_range_witness :
    jsLeB (.fin 0) (gradeQuestion (.multipleChoice mc34) ans34).score = true
    ∧ jsLeB (gradeQuestion (.multipleChoice mc34) ans34).score
        (.fin (gradeQuestion (.multipleChoice mc34) ans34).maxScore) = true
    ∧ (gradeQuestion (.multipleChoice mc34) ans34).maxScore
        = (QuestionConfig.multipleChoice mc34).points :=
  gradeQuestion_score_in_range _ _ (by decide) (by decide) (by decide)

/-! ## Claim C1 — submitQuiz coverage and score sum (corrected) -/

theorem mapGet_mapSet_ne {β : Type} (m : List (String × β)) (k k2 : String)
    (v : β) (h : k ≠ k2) : mapGet (mapSet m k2 v) k = mapGet m k := by
  induction m with
  | nil =>
    simp only [mapSet, mapGet]
    rw [if_neg (fun hk => h hk.symm)]
  | cons p rest ih =>
    by_cases hp : p.1 = k2
    · simp only [mapSet, if_pos hp, mapGet]
      rw [if_neg (fun hk => h hk.symm), if_neg (fun hk => h (hp ▸ hk).symm)]
    · simp only [mapSet, if_neg hp, mapGet]
      by_cases hpk : p.1 = k
      · rw [if_pos hpk, if_pos hpk]
      · rw [if_neg hpk, if_neg hpk]
        exact ih

theorem foldl_congr_mem {α β : Type} (l : List α) (f g : β → α → β)
    (h : ∀ b, ∀ x ∈ l, f b x = g b x) : ∀ b, l.foldl f b = l.foldl g b := by
  induction l with
  | nil => intro b; rfl
  | cons x xs ih =>
    intro b
    simp only [List.foldl_cons]
    rw [h b x (List.mem_cons_self x xs)]
    exact ih (fun b2 y hy => h b2 y (List.mem_cons_of_mem x hy)) (g b x)

theorem gradeQuizFold_total (answers : List (String × QuestionAnswer))
    (qs : List QuestionConfig) :
    ∀ acc : JSNum × ℚ × List (String × GradingResult),
    (qs.foldl (gradeQuizStep answers) acc).1
      = qs.foldl (fun t q => jsAdd t (perResult answers q).score) acc.1 := by
  induction qs with
  | nil => intro acc; rfl
  | cons q rest ih =>
    intro acc
    simp only [List.foldl_cons]
    rw [ih]
    have hstep : (gradeQuizStep answers acc q).1
        = jsAdd acc.1 (perResult answers q).score := by
      unfold gradeQuizStep perResult
      cases hq : mapGet answers q.qid with
      | none => simp [noAnswerResult, jsAdd_fin_zero]
      | some a => rfl
    rw [hstep]

theorem gradeQuizFold_results_not_mem
    (answers : List (String × QuestionAnswer)) (qs : List QuestionConfig)
    (k : String) :
    ∀ acc, k ∉ qs.map QuestionConfig.qid →
    mapGet ((qs.foldl (gradeQuizStep answers) acc).2.2) k
      = mapGet acc.2.2 k := by
  induction qs with
  | nil => intro acc _; rfl
  | cons q rest ih =>
    intro acc hk
    simp only [List.map_cons, List.mem_cons, not_or] at hk
    obtain ⟨hk1, hk2⟩ := hk
    simp only [List.foldl_cons]
    rw [ih _ hk2]
    unfold gradeQuizStep
    cases hq : mapGet answers q.qid with
    | none => exact mapGet_mapSet_ne _ _ _ _ hk1
    | some a => exact mapGet_mapSet_ne _ _ _ _ hk1

theorem gradeQuizFold_results_mem
    (answers : List (String × QuestionAnswer)) (qs : List QuestionConfig) :
    ∀ acc, (qs.map QuestionConfig.qid).Nodup → ∀ q ∈ qs,
    mapGet ((qs.foldl (gradeQuizStep answers) acc).2.2) q.qid
      = some (perResult answers q) := by
  induction qs with
  | nil => intro acc _ q hq; simp at hq
  | cons q0 rest ih =>
    intro acc hnd q hq
    simp only [List.map_cons, List.nodup_cons] at hnd
    obtain ⟨hnotin, hnd2⟩ := hnd
    rcases List.mem_cons.mp hq with rfl | hmem
    · simp only [List.foldl_cons]
      rw [gradeQuizFold_results_not_mem answers rest q.qid _ hnotin]
      unfold gradeQuizStep perResult
      cases hq2 : mapGet answers q.qid with
      | none => exact mapGet_mapSet_self _ _ _
      | some a => exact mapGet_mapSet_self _ _ _
    · simp only [List.foldl_cons]
      exact ih _ hnd2 q hmem

/-- Claim C1 amended: for every state whose stored submissions are keyed by
their own question id, whose configured question ids are distinct, and
whose per-question grading scores are all finite, `submitQuiz` returns a
result with exactly one submission per configured question (in
configuration order, reusing stored submissions and synthesizing the rest)
and `result.score` equal to the sum of the submissions' scores.  (With a
NaN per-question score the sum equality fails, since `score || 0` coerces
the submission's copy to 0 while the total stays NaN.) -/
theorem submitQuiz_submission_coverage (s : QuizState)
    (hkeys : s.submissions.all (fun p => p.2.questionId == p.1) = true)
    (hnd : (s.config.questions.map QuestionConfig.qid).Nodup)
    (hfin : s.config.questions.all
        (fun q => isFin (perResult s.answers q).score) = true) :
    ((submitQuiz s).1).submissions.length = s.config.questions.length
    ∧ (∀ i : ℕ, (((submitQuiz s).1).submissions[i]?).map
          QuestionSubmission.questionId
        = (s.config.questions[i]?).map QuestionConfig.qid)
    ∧ ((submitQuiz s).1).score = subScoreSum ((submitQuiz s).1).submissions
    := by
  have hkeys2 : ∀ p ∈ s.submissions, p.2.questionId = p.1 := by
    intro p hp
    have := List.all_eq_true.mp hkeys p hp
    simpa using this
  have hfin2 : ∀ q ∈ s.config.questions,
      isFin (perResult s.answers q).score = true := by
    intro q hq
    simpa using List.all_eq_true.mp hfin q hq
  have hpre : ∀ q, (preSubmission s q).questionId = q.qid := by
    intro q
    unfold preSubmission
    cases hg : mapGet s.submissions q.qid with
    | none => rfl
    | some ex => exact hkeys2 (q.qid, ex) (mapGet_mem _ _ _ hg)
  have hmerge : ∀ rs sub, (mergeGrading rs sub).questionId
      = sub.questionId := fun rs sub => rfl
  have hsubs : ((submitQuiz s).1).submissions
      = (s.config.questions.map (preSubmission s)).map
          (mergeGrading (gradeQuiz s.config.questions s.answers).results) :=
    rfl
  refine ⟨?_, ?_, ?_⟩
  · rw [hsubs]
    simp
  · intro i
    rw [hsubs]
    rw [List.getElem?_map, List.getElem?_map]
    cases hqi : s.config.questions[i]? with
    | none => rfl
    | some q => simp [hmerge, hpre q]
  · have hscore : ((submitQuiz s).1).score
        = (s.config.questions.foldl (gradeQuizStep s.answers)
            (.fin 0, 0, [])).1 := rfl
    rw [hscore, gradeQuizFold_total]
    rw [hsubs, subScoreSum, List.foldl_map, List.foldl_map]
    refine foldl_congr_mem _ _ _ ?_ _
    intro t q hq
    have hres : mapGet (gradeQuiz s.config.questions s.answers).results q.qid
        = some (perResult s.answers q) :=
      gradeQuizFold_results_mem s.answers s.config.questions _ hnd q hq
    have hsc : (mergeGrading (gradeQuiz s.config.questions s.answers).results
        (preSubmission s q)).score
        = some ((perResult s.answers q).score) := by
      unfold mergeGrading
      simp only [hpre q, hres]
      rw [jsOr0_of_isFin _ (hfin2 q hq)]
    rw [hsc]
    rfl

/-- A one-question quiz whose only question is the zero-correct-option
multi-select. -/
def cfgNaN : QuizConfig :=
  { id := "quizN", questions := [.multipleChoice mcNoCorrect],
    allowNavigation := false, allowSkip := false,
    requireAllAnswered := false, passingScore := none, timeLimit := none }

/-- The state of `cfgNaN` after answering its question. -/
def sNaN : QuizState := setAnswer (initState cfgNaN) "mz" ansSelA

/-- Claim C1 counterexample: submitting the quiz whose single answered
question grades to NaN yields `result.score = NaN` while the submissions
sum to 0 (`score || 0` maps the falsy NaN to 0), so the claimed equality
fails. -/
theorem submitQuiz_nan_score_sum_mismatch :
    ((submitQuiz sNaN).1).score = JSNum.nan
    ∧ subScoreSum ((submitQuiz sNaN).1).submissions = .fin 0
    ∧ ((submitQuiz sNaN).1).score
        ≠ subScoreSum ((submitQuiz sNaN).1).submissions := by
  have h1 : ((submitQuiz sNaN).1).score = JSNum.nan := rfl
  have h2 : subScoreSum ((submitQuiz sNaN).1).submissions = .fin (0 + 0) :=
    rfl
  refine ⟨h1, ?_, ?_⟩
  · rw [h2]
    norm_num
  · rw [h1, h2]
    decide

/-- Witness for C1 on a concrete two-question quiz with one answered
question. -/
theorem submitQuiz_submission_coverage_witness :
    ((submitQuiz (setAnswer (initState cfgTwoLinear) "q1" q1Answer)).1).score
      = subScoreSum ((submitQuiz (setAnswer (initState cfgTwoLinear)
          "q1" q1Answer)).1).submissions :=
  (submitQuiz_submission_coverage _ (by decide) (by decide) (by decide)).2.2

end ReactLMS
